import Mathlib

/-!
Verification of the parallel task orchestration core
(`src/agents/parallel-orchestrator.ts`) against its design specification.

The orchestrator is shallowly embedded as a pure state machine: every
external trigger (task submission, inbound worker message, worker
error/exit, timer expiry) is an `Event`, and `step` is the serialized
Dispatcher reaction, mirroring the source's single-writer discipline.
JavaScript `Map`s (which iterate in insertion order) are modelled as
association lists in insertion order; `Date` values are milliseconds as
`Nat`.  Fields of the source records that the orchestration logic never
reads (`description`, the opaque `config` payload, the
`onProgress`/`onComplete`/`onError` callbacks, the `Worker` thread handle,
`startTime`) are omitted; task-id generation (timestamp plus random
suffix) is modelled by the caller supplying a fresh id.
-/

namespace GucciBot

/-- `WorkerTaskType` from parallel-orchestrator.ts. -/
inductive WorkerTaskType
  | monitor | research | learn | optimize | analyze
deriving DecidableEq

/-- `WorkerStatus` from parallel-orchestrator.ts. -/
inductive WorkerStatus
  | idle | running | paused | terminated | error
deriving DecidableEq

/-- `WorkerTask` (the fields the orchestrator reads). -/
structure WorkerTask where
  id : String
  type : WorkerTaskType
  priority : Int
  timeout : Option Nat
  retryOnError : Bool
  maxRetries : Option Nat
deriving DecidableEq

/-- `WorkerResult` from parallel-orchestrator.ts; `data` is the opaque
result payload, kept as an optional string. -/
structure WorkerResult where
  taskId : String
  success : Bool
  data : Option String
  error : Option String
  duration : Nat
deriving DecidableEq

/-- `WorkerInstance` (the fields the orchestrator reads; the thread
handle and `startTime` are omitted, `lastActivity` is in ms). -/
structure WorkerInstance where
  id : String
  type : WorkerTaskType
  status : WorkerStatus
  currentTask : Option String
  tasksCompleted : Nat
  errors : Nat
  lastActivity : Nat
deriving DecidableEq

/-- `ParallelOrchestratorConfig` (the fields the orchestration logic
reads; `workerScriptPath` and `enableLogging` only affect I/O). -/
structure Config where
  maxWorkers : Nat
  enableAutoScaling : Bool
  idleTimeout : Nat
  taskQueueSize : Nat
deriving DecidableEq

/-- The orchestrator's mutable state.  `dispatchLog` is a ghost field
recording, in order, the ids of tasks handed to `executeTask`; it is
written exactly where the source logs "Task started". -/
structure OrchestratorState where
  config : Config
  workers : List WorkerInstance
  taskQueue : List WorkerTask
  activeTasks : List WorkerTask
  results : List WorkerResult
  nextWorkerId : Nat
  dispatchLog : List String
deriving DecidableEq

/-- `this.workers.get(workerId)`. -/
def findWorker? (ws : List WorkerInstance) (wid : String) : Option WorkerInstance :=
  ws.find? (fun w => w.id == wid)

/-- Mutation of a `WorkerInstance` object held in `this.workers`: the
entry with the same id is replaced; if the object was already detached
from the map (as after `workers.delete`), the map is unchanged. -/
def updateWorker (ws : List WorkerInstance) (w : WorkerInstance) : List WorkerInstance :=
  ws.map (fun x => if x.id == w.id then w else x)

/-- `this.workers.delete(workerId)`. -/
def removeWorker (ws : List WorkerInstance) (wid : String) : List WorkerInstance :=
  ws.filter (fun w => w.id != wid)

/-- `this.results.set(result.taskId, result)` — overwrite or insert. -/
def setResult (rs : List WorkerResult) (r : WorkerResult) : List WorkerResult :=
  if rs.any (fun x => x.taskId == r.taskId) then
    rs.map (fun x => if x.taskId == r.taskId then r else x)
  else
    rs ++ [r]

/-- `this.results.get(taskId)`. -/
def getResult? (rs : List WorkerResult) (tid : String) : Option WorkerResult :=
  rs.find? (fun r => r.taskId == tid)

/-- `this.activeTasks.set(task.id, task)`. -/
def setActive (ts : List WorkerTask) (t : WorkerTask) : List WorkerTask :=
  if ts.any (fun x => x.id == t.id) then
    ts.map (fun x => if x.id == t.id then t else x)
  else
    ts ++ [t]

/-- `this.activeTasks.get(tid)`. -/
def getActive? (ts : List WorkerTask) (tid : String) : Option WorkerTask :=
  ts.find? (fun t => t.id == tid)

/-- `this.activeTasks.delete(tid)`. -/
def removeActive (ts : List WorkerTask) (tid : String) : List WorkerTask :=
  ts.filter (fun t => t.id != tid)

/-- `canSpawnWorker()`: `this.workers.size < this.config.maxWorkers`. -/
def canSpawnWorker (s : OrchestratorState) : Bool :=
  s.workers.length < s.config.maxWorkers

/-- `createWorker(type)`: spawns a fresh worker thread (the thread itself
is external), registers an idle `WorkerInstance` and bumps the id
counter. -/
def createWorker (s : OrchestratorState) (t : WorkerTaskType) (now : Nat) :
    WorkerInstance × OrchestratorState :=
  let wid := "worker_" ++ toString s.nextWorkerId
  let w : WorkerInstance :=
    { id := wid, type := t, status := .idle, currentTask := none,
      tasksCompleted := 0, errors := 0, lastActivity := now }
  (w, { s with workers := s.workers ++ [w], nextWorkerId := s.nextWorkerId + 1 })

/-- `getOrCreateWorker(type)`: first idle worker of the same type, else
any idle worker (its type is reassigned), else a fresh worker when under
`maxWorkers`.  The source's final branch blocks in a 100 ms polling loop
waiting for an idle worker; it is modelled as `none` (it is unreachable
from `processQueue`, whose guard implies the third branch succeeds). -/
def getOrCreateWorker (s : OrchestratorState) (t : WorkerTaskType) (now : Nat) :
    Option (WorkerInstance × OrchestratorState) :=
  match s.workers.find? (fun w => w.type == t && w.status == WorkerStatus.idle) with
  | some w => some (w, s)
  | none =>
    match s.workers.find? (fun w => w.status == WorkerStatus.idle) with
    | some w =>
      let w' := { w with type := t }
      some (w', { s with workers := updateWorker s.workers w' })
    | none =>
      if s.workers.length < s.config.maxWorkers then
        some (createWorker s t now)
      else
        none

/-- `executeTask(task)`: obtain a worker, register the task as active,
mark the worker running and post the `execute` message (external).  The
`setTimeout` armed here is modelled by the `timerFire` event.  The ghost
`dispatchLog` records the dispatch. -/
def executeTask (s : OrchestratorState) (task : WorkerTask) (now : Nat) :
    OrchestratorState :=
  match getOrCreateWorker s task.type now with
  | none => s
  | some (w, s1) =>
    let w' := { w with currentTask := some task.id, status := .running,
                       lastActivity := now }
    { s1 with
      workers := updateWorker s1.workers w',
      activeTasks := setActive s1.activeTasks task,
      dispatchLog := s1.dispatchLog ++ [task.id] }

/-- The `processQueue()` while-loop, with explicit fuel.  `executeTask`
never touches `taskQueue`, so fuel `taskQueue.length` runs the loop
exactly as the source does. -/
def processQueueFuel : Nat → OrchestratorState → Nat → OrchestratorState
  | 0, s, _ => s
  | fuel + 1, s, now =>
    match s.taskQueue with
    | [] => s
    | task :: rest =>
      if canSpawnWorker s then
        processQueueFuel fuel (executeTask { s with taskQueue := rest } task now) now
      else
        s

/-- `processQueue()`. -/
def processQueue (s : OrchestratorState) (now : Nat) : OrchestratorState :=
  processQueueFuel s.taskQueue.length s now

/-- `terminateWorker(workerId)`: the source marks the instance
`terminated`, terminates the thread (external) and deletes it from the
pool; the net state effect is the deletion. -/
def terminateWorker (s : OrchestratorState) (wid : String) : OrchestratorState :=
  match findWorker? s.workers wid with
  | none => s
  | some _ => { s with workers := removeWorker s.workers wid }

/-- `considerScaleDown(worker)`. -/
def considerScaleDown (s : OrchestratorState) (w : WorkerInstance) (now : Nat) :
    OrchestratorState :=
  if s.workers.length ≤ 1 then s
  else if s.taskQueue.length > 0 then s
  else if now - w.lastActivity > s.config.idleTimeout then terminateWorker s w.id
  else s

/-- Payload of the worker protocol's `complete` message.  Note the
protocol carries the task id, but `handleComplete` never reads it. -/
structure CompleteData where
  taskId : String
  result : Option String
  duration : Nat
deriving DecidableEq

/-- Payload of the worker protocol's `error` message.  The task id is
carried but `handleTaskError` never reads it. -/
structure ErrorData where
  taskId : String
  message : String
deriving DecidableEq

/-- `!task.maxRetries || worker.errors < task.maxRetries`: an absent or
zero `maxRetries` is falsy in JavaScript, so the bang makes the check
pass unconditionally. -/
def retryAllowed (maxRetries : Option Nat) (errors : Nat) : Bool :=
  match maxRetries with
  | none => true
  | some m => m == 0 || errors < m

/-- `handleComplete(worker, data)`: resolves the task from the worker's
`currentTask` (not from `data.taskId`), records a successful result,
frees the worker, re-enters the queue and possibly scales down.  The
`worker` argument is the (already `lastActivity`-refreshed) instance;
`considerScaleDown` receives the live map entry, mirroring JavaScript
object identity. -/
def handleComplete (s : OrchestratorState) (w : WorkerInstance) (data : CompleteData)
    (now : Nat) : OrchestratorState :=
  match w.currentTask.bind (fun tid => getActive? s.activeTasks tid) with
  | none => s
  | some task =>
    let result : WorkerResult :=
      { taskId := task.id, success := true, data := data.result,
        error := none, duration := data.duration }
    let w' := { w with currentTask := none, status := .idle,
                       tasksCompleted := w.tasksCompleted + 1 }
    let s1 := { s with results := setResult s.results result,
                       activeTasks := removeActive s.activeTasks task.id,
                       workers := updateWorker s.workers w' }
    let s2 := processQueue s1 now
    if s2.config.enableAutoScaling then
      considerScaleDown s2 ((findWorker? s2.workers w'.id).getD w') now
    else s2

/-- `handleTaskError(worker, error)`: resolves the task from the
worker's `currentTask`, bumps the worker's cumulative error counter,
records a failed result (duration 0), frees the worker, optionally
re-enqueues the task at the front (the retry bound reads the worker's
`errors`, incremented first) and re-enters the queue. -/
def handleTaskError (s : OrchestratorState) (w : WorkerInstance) (errMsg : String)
    (now : Nat) : OrchestratorState :=
  match w.currentTask.bind (fun tid => getActive? s.activeTasks tid) with
  | none => s
  | some task =>
    let w1 := { w with errors := w.errors + 1 }
    let result : WorkerResult :=
      { taskId := task.id, success := false, data := none,
        error := some errMsg, duration := 0 }
    let w2 := { w1 with currentTask := none, status := .idle }
    let s1 := { s with results := setResult s.results result,
                       activeTasks := removeActive s.activeTasks task.id,
                       workers := updateWorker s.workers w2 }
    let s2 :=
      if task.retryOnError && retryAllowed task.maxRetries w2.errors then
        { s1 with taskQueue := task :: s1.taskQueue }
      else s1
    processQueue s2 now

/-- Inbound worker messages (`progress` carries data the orchestrator
only forwards to observers, so its payload is irrelevant to state). -/
inductive WorkerMessage
  | progress
  | complete (data : CompleteData)
  | error (data : ErrorData)
deriving DecidableEq

/-- `handleWorkerMessage(workerId, message)`: refresh `lastActivity`,
then dispatch on the message kind.  `handleProgress` does not change
orchestrator state (it only emits events and invokes the task's
callback). -/
def handleWorkerMessage (s : OrchestratorState) (wid : String) (msg : WorkerMessage)
    (now : Nat) : OrchestratorState :=
  match findWorker? s.workers wid with
  | none => s
  | some w =>
    let w1 := { w with lastActivity := now }
    let s1 := { s with workers := updateWorker s.workers w1 }
    match msg with
    | .progress => s1
    | .complete data => handleComplete s1 w1 data now
    | .error data => handleTaskError s1 w1 data.message now

/-- `handleWorkerError(workerId, error)`: mark the worker `error`; if it
holds a task, fail that task via `handleTaskError` (which sets the same
instance back to `idle`).  The worker is not removed from the pool. -/
def handleWorkerError (s : OrchestratorState) (wid : String) (errMsg : String)
    (now : Nat) : OrchestratorState :=
  match findWorker? s.workers wid with
  | none => s
  | some w =>
    let w1 := { w with status := .error }
    let s1 := { s with workers := updateWorker s.workers w1 }
    if w1.currentTask.isSome then handleTaskError s1 w1 errMsg now else s1

/-- `handleWorkerExit(workerId, code)`: delete the worker from the pool;
if it held a task, fail that task via `handleTaskError` (whose write-back
of the now-detached instance is a no-op on the pool). -/
def handleWorkerExit (s : OrchestratorState) (wid : String) (code : Int)
    (now : Nat) : OrchestratorState :=
  match findWorker? s.workers wid with
  | none => s
  | some w =>
    let s1 := { s with workers := removeWorker s.workers wid }
    if w.currentTask.isSome then
      handleTaskError s1 w ("Worker exited with code " ++ toString code) now
    else s1

/-- `terminateTask(taskId, reason)`: if the task is active, find the
first pool worker holding it, post `terminate` to its thread (external),
record a failed result (duration 0) and free the worker.  If no worker
holds it, nothing happens. -/
def terminateTask (s : OrchestratorState) (taskId reason : String) :
    OrchestratorState :=
  match getActive? s.activeTasks taskId with
  | none => s
  | some _ =>
    match s.workers.find? (fun w => w.currentTask == some taskId) with
    | none => s
    | some w =>
      let result : WorkerResult :=
        { taskId := taskId, success := false, data := none,
          error := some ("Task terminated: " ++ reason), duration := 0 }
      let w' := { w with currentTask := none, status := .idle }
      { s with results := setResult s.results result,
               activeTasks := removeActive s.activeTasks taskId,
               workers := updateWorker s.workers w' }

/-- The callback armed by `setTimeout` in `executeTask`: terminate the
task if it is still active when the timer fires. -/
def onTaskTimeout (s : OrchestratorState) (taskId : String) : OrchestratorState :=
  if s.activeTasks.any (fun t => t.id == taskId) then
    terminateTask s taskId "timeout"
  else s

/-- `submitTask(task)`: reject when the queue is at capacity, otherwise
append the task (its fresh id supplied by the caller, standing for the
source's generated id), run `processQueue` and return the id. -/
def submitTask (s : OrchestratorState) (task : WorkerTask) (now : Nat) :
    Except String (String × OrchestratorState) :=
  if s.taskQueue.length ≥ s.config.taskQueueSize then
    .error ("Task queue full (" ++ toString s.config.taskQueueSize ++ ")")
  else
    let s1 := { s with taskQueue := s.taskQueue ++ [task] }
    let s2 := processQueue s1 now
    .ok (task.id, s2)

/-- Return type of `getTaskStatus`. -/
inductive TaskStatus
  | queued | running | completed | error | unknown
deriving DecidableEq

/-- `getTaskStatus(taskId)`. -/
def getTaskStatus (s : OrchestratorState) (tid : String) : TaskStatus :=
  if s.taskQueue.any (fun t => t.id == tid) then .queued
  else if s.activeTasks.any (fun t => t.id == tid) then .running
  else
    match getResult? s.results tid with
    | some r => if r.success then .completed else .error
    | none => .unknown

/-- `getResult(taskId)`. -/
def getResult (s : OrchestratorState) (tid : String) : Option WorkerResult :=
  getResult? s.results tid

/-- External triggers, each delivered serially to the Dispatcher with
its arrival time in ms. -/
inductive Event
  | submit (task : WorkerTask) (now : Nat)
  | workerMsg (wid : String) (msg : WorkerMessage) (now : Nat)
  | workerError (wid : String) (errMsg : String) (now : Nat)
  | workerExit (wid : String) (code : Int) (now : Nat)
  | timerFire (taskId : String) (now : Nat)
deriving DecidableEq

/-- One serialized Dispatcher reaction.  A rejected submission leaves
the state unchanged (the error propagates to the caller only). -/
def step (s : OrchestratorState) : Event → OrchestratorState
  | .submit task now =>
    match submitTask s task now with
    | .ok (_, s') => s'
    | .error _ => s
  | .workerMsg wid msg now => handleWorkerMessage s wid msg now
  | .workerError wid errMsg now => handleWorkerError s wid errMsg now
  | .workerExit wid code now => handleWorkerExit s wid code now
  | .timerFire taskId _ => onTaskTimeout s taskId

/-- The freshly constructed orchestrator. -/
def initState (cfg : Config) : OrchestratorState :=
  { config := cfg, workers := [], taskQueue := [], activeTasks := [],
    results := [], nextWorkerId := 1, dispatchLog := [] }

/-- Run a sequence of events from the initial state. -/
def run (cfg : Config) (evs : List Event) : OrchestratorState :=
  evs.foldl step (initState cfg)

/-! ### Basic facts about the map operations -/

theorem updateWorker_length (ws : List WorkerInstance) (w : WorkerInstance) :
    (updateWorker ws w).length = ws.length := by
  simp [updateWorker]

theorem removeWorker_length_le (ws : List WorkerInstance) (wid : String) :
    (removeWorker ws wid).length ≤ ws.length :=
  List.length_filter_le _ ws

theorem findWorker?_updateWorker (ws : List WorkerInstance) (w : WorkerInstance)
    (i : String) :
    findWorker? (updateWorker ws w) i =
      (findWorker? ws i).map (fun x => if x.id == w.id then w else x) := by
  induction ws with
  | nil => rfl
  | cons a as ih =>
    have hid : (if a.id == w.id then w else a).id = a.id := by
      by_cases h : a.id = w.id
      · simp [h]
      · simp [h]
    simp only [findWorker?, updateWorker, List.map_cons] at ih ⊢
    rw [List.find?_cons, List.find?_cons, hid]
    cases hpa : a.id == i
    · exact ih
    · rfl

theorem findWorker?_updateWorker_of_found {ws : List WorkerInstance} {i : String}
    {x : WorkerInstance} (hf : findWorker? ws i = some x) (w : WorkerInstance)
    (hid : x.id = w.id) :
    findWorker? (updateWorker ws w) i = some w := by
  rw [findWorker?_updateWorker, hf]
  simp [hid]

theorem findWorker?_removeWorker_self (ws : List WorkerInstance) (wid : String) :
    findWorker? (removeWorker ws wid) wid = none := by
  rw [findWorker?, List.find?_eq_none]
  intro x hx
  rcases List.mem_filter.mp hx with ⟨-, hne⟩
  simpa using hne

theorem updateWorker_removeWorker_self (ws : List WorkerInstance)
    (w : WorkerInstance) (wid : String) (hw : w.id = wid) :
    updateWorker (removeWorker ws wid) w = removeWorker ws wid := by
  unfold updateWorker
  have hfix : ∀ a ∈ removeWorker ws wid, (if a.id == w.id then w else a) = a := by
    intro a ha
    rcases List.mem_filter.mp ha with ⟨-, hne⟩
    have hab : (a.id == wid) = false := by simpa using hne
    simp [hw, hab]
  exact (List.map_congr_left hfix).trans (List.map_id' _)

theorem find?_map_overwrite (rs : List WorkerResult) (r : WorkerResult)
    (hany : rs.any (fun x => x.taskId == r.taskId) = true) :
    (rs.map (fun x => if x.taskId == r.taskId then r else x)).find?
      (fun x => x.taskId == r.taskId) = some r := by
  induction rs with
  | nil => simp at hany
  | cons a as ih =>
    simp only [List.map_cons]
    by_cases ha : a.taskId = r.taskId
    · simp [List.find?, ha]
    · have hb : (a.taskId == r.taskId) = false := by simpa using ha
      simp only [List.any_cons, hb, Bool.false_or] at hany
      simpa [List.find?, hb] using ih hany

theorem getResult?_setResult_self (rs : List WorkerResult) (r : WorkerResult) :
    getResult? (setResult rs r) r.taskId = some r := by
  unfold setResult getResult?
  split
  · rename_i hany
    exact find?_map_overwrite rs r hany
  · rename_i hany
    rw [List.find?_append]
    have hnone : rs.find? (fun x => x.taskId == r.taskId) = none := by
      rw [List.find?_eq_none]
      intro x hx hbeq
      exact hany (List.any_eq_true.mpr ⟨x, hx, hbeq⟩)
    rw [hnone]
    simp [List.find?]

theorem getActive?_some_any (ts : List WorkerTask) (tid : String)
    (t : WorkerTask) (h : getActive? ts tid = some t) :
    ts.any (fun x => x.id == tid) = true := by
  unfold getActive? at h
  rw [List.any_eq_true]
  have hp := List.find?_some h
  exact ⟨t, List.mem_of_find?_eq_some h, hp⟩

theorem getActive?_removeActive_self (ts : List WorkerTask) (tid : String) :
    getActive? (removeActive ts tid) tid = none := by
  rw [getActive?, List.find?_eq_none]
  intro x hx
  rcases List.mem_filter.mp hx with ⟨-, hne⟩
  simpa using hne

theorem any_removeActive_self (ts : List WorkerTask) (tid : String) :
    (removeActive ts tid).any (fun x => x.id == tid) = false := by
  rw [← Bool.not_eq_true, List.any_eq_true]
  rintro ⟨x, hx, hbeq⟩
  rcases List.mem_filter.mp hx with ⟨-, hne⟩
  exact absurd hbeq (by simpa using hne)

/-! ### Preservation of the pool bound -/

/-- One Dispatcher-internal call keeps the configuration and carries the
pool-size bound from `s` to `s'`. -/
def PoolPres (s s' : OrchestratorState) : Prop :=
  s'.config = s.config ∧
    (s.workers.length ≤ s.config.maxWorkers →
      s'.workers.length ≤ s.config.maxWorkers)

theorem poolPres_rfl (s : OrchestratorState) : PoolPres s s := ⟨rfl, id⟩

theorem poolPres_trans {a b c : OrchestratorState} (h1 : PoolPres a b)
    (h2 : PoolPres b c) : PoolPres a c := by
  obtain ⟨c1, l1⟩ := h1
  obtain ⟨c2, l2⟩ := h2
  refine ⟨c2.trans c1, fun h => ?_⟩
  have hb := l2 (by rw [c1]; exact l1 h)
  rwa [c1] at hb

theorem poolPres_of_le {s s' : OrchestratorState} (hc : s'.config = s.config)
    (hl : s'.workers.length ≤ s.workers.length) : PoolPres s s' :=
  ⟨hc, fun h => hl.trans h⟩

theorem poolPres_congr_le {s t t' : OrchestratorState} (h : PoolPres t t')
    (hc : t.config = s.config) (hl : t.workers.length ≤ s.workers.length) :
    PoolPres s t' := by
  obtain ⟨c, l⟩ := h
  refine ⟨c.trans hc, fun hb => ?_⟩
  have hbt : t.workers.length ≤ t.config.maxWorkers := by
    rw [hc]
    exact hl.trans hb
  have := l hbt
  rwa [hc] at this

theorem poolPres_getOrCreateWorker {s : OrchestratorState} {t : WorkerTaskType}
    {now : Nat} {w : WorkerInstance} {s' : OrchestratorState}
    (h : getOrCreateWorker s t now = some (w, s')) : PoolPres s s' := by
  unfold getOrCreateWorker at h
  split at h
  · cases h
    exact poolPres_rfl s
  · split at h
    · cases h
      exact poolPres_of_le rfl (updateWorker_length _ _).le
    · split at h
      · rename_i hlt
        injection h with h2
        have hs : s' = (createWorker s t now).2 := (congrArg Prod.snd h2).symm
        subst hs
        refine ⟨rfl, fun _ => ?_⟩
        simp only [createWorker, List.length_append, List.length_cons,
          List.length_nil]
        omega
      · cases h

theorem getOrCreateWorker_state_eq {s : OrchestratorState} {t : WorkerTaskType}
    {now : Nat} {w : WorkerInstance} {s' : OrchestratorState}
    (h : getOrCreateWorker s t now = some (w, s')) :
    s'.taskQueue = s.taskQueue ∧ s'.results = s.results := by
  unfold getOrCreateWorker at h
  split at h
  · cases h
    exact ⟨rfl, rfl⟩
  · split at h
    · cases h
      exact ⟨rfl, rfl⟩
    · split at h
      · injection h with h2
        have hs : s' = (createWorker s t now).2 := (congrArg Prod.snd h2).symm
        subst hs
        exact ⟨rfl, rfl⟩
      · cases h

theorem poolPres_executeTask (s : OrchestratorState) (task : WorkerTask)
    (now : Nat) : PoolPres s (executeTask s task now) := by
  unfold executeTask
  split
  · exact poolPres_rfl s
  · rename_i w s1 h
    exact poolPres_trans (poolPres_getOrCreateWorker h)
      (poolPres_of_le rfl (updateWorker_length _ _).le)

theorem executeTask_taskQueue (s : OrchestratorState) (task : WorkerTask)
    (now : Nat) : (executeTask s task now).taskQueue = s.taskQueue := by
  unfold executeTask
  split
  · rfl
  · rename_i w s1 h
    exact (getOrCreateWorker_state_eq h).1

theorem executeTask_results (s : OrchestratorState) (task : WorkerTask)
    (now : Nat) : (executeTask s task now).results = s.results := by
  unfold executeTask
  split
  · rfl
  · rename_i w s1 h
    exact (getOrCreateWorker_state_eq h).2

theorem poolPres_processQueueFuel (fuel : Nat) :
    ∀ s now, PoolPres s (processQueueFuel fuel s now) := by
  induction fuel with
  | zero => exact fun s _ => poolPres_rfl s
  | succ n ih =>
    intro s now
    unfold processQueueFuel
    split
    · exact poolPres_rfl s
    · split
      · rename_i task rest hq hc
        exact poolPres_congr_le
          (poolPres_trans (poolPres_executeTask { s with taskQueue := rest } task now)
            (ih (executeTask { s with taskQueue := rest } task now) now))
          rfl (le_refl _)
      · exact poolPres_rfl s

theorem processQueueFuel_results (fuel : Nat) :
    ∀ s now, (processQueueFuel fuel s now).results = s.results := by
  induction fuel with
  | zero => exact fun _ _ => rfl
  | succ n ih =>
    intro s now
    unfold processQueueFuel
    split
    · rfl
    · split
      · rename_i task rest hq hc
        rw [ih, executeTask_results]
      · rfl

theorem poolPres_processQueue (s : OrchestratorState) (now : Nat) :
    PoolPres s (processQueue s now) :=
  poolPres_processQueueFuel _ s now

theorem processQueue_results (s : OrchestratorState) (now : Nat) :
    (processQueue s now).results = s.results :=
  processQueueFuel_results _ s now

theorem processQueue_of_nil (s : OrchestratorState) (now : Nat)
    (h : s.taskQueue = []) : processQueue s now = s := by
  unfold processQueue
  rw [h]
  rfl

theorem terminateWorker_spec (s : OrchestratorState) (wid : String) :
    (terminateWorker s wid).config = s.config ∧
    (terminateWorker s wid).workers.length ≤ s.workers.length ∧
    (terminateWorker s wid).results = s.results := by
  unfold terminateWorker
  split
  · exact ⟨rfl, le_refl _, rfl⟩
  · exact ⟨rfl, removeWorker_length_le _ _, rfl⟩

theorem considerScaleDown_spec (s : OrchestratorState) (w : WorkerInstance)
    (now : Nat) :
    (considerScaleDown s w now).config = s.config ∧
    (considerScaleDown s w now).workers.length ≤ s.workers.length ∧
    (considerScaleDown s w now).results = s.results := by
  unfold considerScaleDown
  split
  · exact ⟨rfl, le_refl _, rfl⟩
  · split
    · exact ⟨rfl, le_refl _, rfl⟩
    · split
      · exact terminateWorker_spec s w.id
      · exact ⟨rfl, le_refl _, rfl⟩

theorem poolPres_handleComplete (s : OrchestratorState) (w : WorkerInstance)
    (data : CompleteData) (now : Nat) : PoolPres s (handleComplete s w data now) := by
  unfold handleComplete
  split
  · exact poolPres_rfl s
  · dsimp only
    split
    · exact poolPres_congr_le
        (poolPres_trans (poolPres_processQueue _ now)
          (poolPres_of_le (considerScaleDown_spec _ _ _).1
            (considerScaleDown_spec _ _ _).2.1))
        rfl (updateWorker_length _ _).le
    · exact poolPres_congr_le (poolPres_processQueue _ now) rfl
        (updateWorker_length _ _).le

theorem poolPres_handleTaskError (s : OrchestratorState) (w : WorkerInstance)
    (errMsg : String) (now : Nat) : PoolPres s (handleTaskError s w errMsg now) := by
  unfold handleTaskError
  split
  · exact poolPres_rfl s
  · dsimp only
    split
    · exact poolPres_congr_le (poolPres_processQueue _ now) rfl
        (updateWorker_length _ _).le
    · exact poolPres_congr_le (poolPres_processQueue _ now) rfl
        (updateWorker_length _ _).le

theorem poolPres_handleWorkerMessage (s : OrchestratorState) (wid : String)
    (msg : WorkerMessage) (now : Nat) :
    PoolPres s (handleWorkerMessage s wid msg now) := by
  unfold handleWorkerMessage
  split
  · exact poolPres_rfl s
  · dsimp only
    cases msg with
    | progress => exact poolPres_of_le rfl (updateWorker_length _ _).le
    | complete data =>
      exact poolPres_congr_le (poolPres_handleComplete _ _ data now) rfl
        (updateWorker_length _ _).le
    | error data =>
      exact poolPres_congr_le (poolPres_handleTaskError _ _ data.message now) rfl
        (updateWorker_length _ _).le

theorem poolPres_handleWorkerError (s : OrchestratorState) (wid : String)
    (errMsg : String) (now : Nat) :
    PoolPres s (handleWorkerError s wid errMsg now) := by
  unfold handleWorkerError
  split
  · exact poolPres_rfl s
  · dsimp only
    split
    · exact poolPres_congr_le (poolPres_handleTaskError _ _ errMsg now) rfl
        (updateWorker_length _ _).le
    · exact poolPres_of_le rfl (updateWorker_length _ _).le

theorem poolPres_handleWorkerExit (s : OrchestratorState) (wid : String)
    (code : Int) (now : Nat) : PoolPres s (handleWorkerExit s wid code now) := by
  unfold handleWorkerExit
  split
  · exact poolPres_rfl s
  · dsimp only
    split
    · exact poolPres_congr_le (poolPres_handleTaskError _ _ _ now) rfl
        (removeWorker_length_le _ _)
    · exact poolPres_of_le rfl (removeWorker_length_le _ _)

theorem poolPres_terminateTask (s : OrchestratorState) (tid reason : String) :
    PoolPres s (terminateTask s tid reason) := by
  unfold terminateTask
  split
  · exact poolPres_rfl s
  · split
    · exact poolPres_rfl s
    · exact poolPres_of_le rfl (updateWorker_length _ _).le

theorem poolPres_onTaskTimeout (s : OrchestratorState) (tid : String) :
    PoolPres s (onTaskTimeout s tid) := by
  unfold onTaskTimeout
  split
  · exact poolPres_terminateTask s tid "timeout"
  · exact poolPres_rfl s

theorem submitTask_ok_spec {s : OrchestratorState} {task : WorkerTask}
    {now : Nat} {a : String} {s' : OrchestratorState}
    (h : submitTask s task now = .ok (a, s')) : PoolPres s s' ∧ a = task.id := by
  unfold submitTask at h
  split at h
  · exact absurd h (by simp)
  · rw [Except.ok.injEq, Prod.mk.injEq] at h
    obtain ⟨ha, hs⟩ := h
    subst hs
    exact ⟨poolPres_trans ⟨rfl, id⟩ (poolPres_processQueue _ now), ha.symm⟩

theorem poolPres_step (s : OrchestratorState) (e : Event) :
    PoolPres s (step s e) := by
  cases e with
  | submit task now =>
    simp only [step]
    split
    · rename_i a s' h
      exact (submitTask_ok_spec h).1
    · exact poolPres_rfl s
  | workerMsg wid msg now => exact poolPres_handleWorkerMessage s wid msg now
  | workerError wid errMsg now => exact poolPres_handleWorkerError s wid errMsg now
  | workerExit wid code now => exact poolPres_handleWorkerExit s wid code now
  | timerFire tid now => exact poolPres_onTaskTimeout s tid

theorem poolPres_run (cfg : Config) (evs : List Event) :
    PoolPres (initState cfg) (run cfg evs) := by
  unfold run
  generalize initState cfg = s
  induction evs generalizing s with
  | nil => exact poolPres_rfl s
  | cons e es ih => exact poolPres_trans (poolPres_step s e) (ih (step s e))

/-! ### What the handlers write to the Result Store -/

theorem considerScaleDown_results (s : OrchestratorState) (w : WorkerInstance)
    (now : Nat) : (considerScaleDown s w now).results = s.results :=
  (considerScaleDown_spec s w now).2.2

theorem handleTaskError_result (s : OrchestratorState) (w : WorkerInstance)
    (errMsg : String) (now : Nat) (task : WorkerTask)
    (hcur : w.currentTask = some task.id)
    (hact : getActive? s.activeTasks task.id = some task) :
    getResult (handleTaskError s w errMsg now) task.id =
      some { taskId := task.id, success := false, data := none,
             error := some errMsg, duration := 0 } := by
  unfold handleTaskError
  rw [hcur]
  simp only [Option.some_bind, hact]
  unfold getResult
  split
  · rw [processQueue_results]
    exact getResult?_setResult_self s.results _
  · rw [processQueue_results]
    exact getResult?_setResult_self s.results _

theorem handleComplete_result (s : OrchestratorState) (w : WorkerInstance)
    (data : CompleteData) (now : Nat) (task : WorkerTask)
    (hcur : w.currentTask = some task.id)
    (hact : getActive? s.activeTasks task.id = some task) :
    getResult (handleComplete s w data now) task.id =
      some { taskId := task.id, success := true, data := data.result,
             error := none, duration := data.duration } := by
  unfold handleComplete
  rw [hcur]
  simp only [Option.some_bind, hact]
  unfold getResult
  split
  · rw [considerScaleDown_results, processQueue_results]
    exact getResult?_setResult_self s.results _
  · rw [processQueue_results]
    exact getResult?_setResult_self s.results _

theorem terminateTask_eq (s : OrchestratorState) (tid reason : String)
    (task : WorkerTask) (w : WorkerInstance)
    (hact : getActive? s.activeTasks tid = some task)
    (hw : s.workers.find? (fun x => x.currentTask == some tid) = some w) :
    terminateTask s tid reason =
      { s with
        results := setResult s.results
          { taskId := tid, success := false, data := none,
            error := some ("Task terminated: " ++ reason), duration := 0 },
        activeTasks := removeActive s.activeTasks tid,
        workers := updateWorker s.workers
          { w with currentTask := none, status := .idle } } := by
  unfold terminateTask
  rw [hact, hw]

theorem terminateTask_result (s : OrchestratorState) (tid reason : String)
    (task : WorkerTask) (w : WorkerInstance)
    (hact : getActive? s.activeTasks tid = some task)
    (hw : s.workers.find? (fun x => x.currentTask == some tid) = some w) :
    getResult (terminateTask s tid reason) tid =
      some { taskId := tid, success := false, data := none,
             error := some ("Task terminated: " ++ reason), duration := 0 } := by
  rw [terminateTask_eq s tid reason task w hact hw]
  unfold getResult
  exact getResult?_setResult_self s.results _

theorem getTaskStatus_error_of (s : OrchestratorState) (tid : String)
    (r : WorkerResult)
    (hq : s.taskQueue.any (fun t => t.id == tid) = false)
    (ha : s.activeTasks.any (fun t => t.id == tid) = false)
    (hr : getResult? s.results tid = some r) (hs : r.success = false) :
    getTaskStatus s tid = .error := by
  unfold getTaskStatus
  rw [hq, ha, hr]
  simp [hs]

theorem handleTaskError_eq_noretry (s : OrchestratorState) (w : WorkerInstance)
    (errMsg : String) (now : Nat) (task : WorkerTask)
    (hcur : w.currentTask = some task.id)
    (hact : getActive? s.activeTasks task.id = some task)
    (hnr : task.retryOnError = false) :
    handleTaskError s w errMsg now =
      processQueue
        { s with
          results := setResult s.results
            { taskId := task.id, success := false, data := none,
              error := some errMsg, duration := 0 },
          activeTasks := removeActive s.activeTasks task.id,
          workers := updateWorker s.workers
            { w with errors := w.errors + 1, currentTask := none,
                     status := .idle } } now := by
  unfold handleTaskError
  rw [hcur]
  simp only [Option.some_bind, hact, hnr, Bool.false_and, if_neg]
  simp

/-! ### Scenario configurations and tasks used in the concrete runs -/

/-- A pool of a single worker; autoscaling off (idle reaping is not
reached by any scenario). -/
def cfgOne : Config :=
  { maxWorkers := 1, enableAutoScaling := false, idleTimeout := 300000,
    taskQueueSize := 100 }

/-- A pool of two workers. -/
def cfgTwo : Config :=
  { maxWorkers := 2, enableAutoScaling := false, idleTimeout := 300000,
    taskQueueSize := 100 }

/-- A configuration whose queue capacity is zero. -/
def cfgNoQueue : Config :=
  { maxWorkers := 1, enableAutoScaling := false, idleTimeout := 300000,
    taskQueueSize := 0 }

/-- A plain monitor task with the given id and priority: no timeout, no
retry. -/
def plainTask (i : String) (p : Int) : WorkerTask :=
  { id := i, type := .monitor, priority := p, timeout := none,
    retryOnError := false, maxRetries := none }

/-- The task of the retry scenario: `retryOnError` with `maxRetries = 2`;
its handler errors on every attempt. -/
def retryTask : WorkerTask :=
  { id := "R", type := .monitor, priority := 1, timeout := none,
    retryOnError := true, maxRetries := some 2 }

/-- A task with a 100 ms timeout whose handler never returns. -/
def timeoutTask : WorkerTask :=
  { id := "T", type := .monitor, priority := 1, timeout := some 100,
    retryOnError := false, maxRetries := none }

/-- An `error` message from worker_1 reporting that task R's handler
threw. -/
def errEventR : Event :=
  .workerMsg "worker_1" (.error { taskId := "R", message := "boom" }) 0

/-! ### The claims -/

/-- The C1 scenario: A(priority 1), B(priority 5), C(priority 1)
submitted in that order to an otherwise-idle pool of size 1; the task
that was dispatched then completes. -/
def scenarioC1 : OrchestratorState :=
  run cfgOne
    [ .submit (plainTask "A" 1) 0, .submit (plainTask "B" 5) 0,
      .submit (plainTask "C" 1) 0,
      .workerMsg "worker_1"
        (.complete { taskId := "A", result := none, duration := 10 }) 0 ]

/-- C1: the claimed dispatch order B, A, C is false of the code.  The
queue is a plain FIFO array (`push`/`shift`); `priority` is never read.
In the claim's own scenario the first dispatched task is A, and after A
completes, B and C are still queued (the full pool blocks `processQueue`),
so the dispatch log is `["A"]`, not `["B", "A", "C"]`. -/
theorem C1_dispatch_order_ignores_priority :
    scenarioC1.dispatchLog = ["A"] ∧
    getTaskStatus scenarioC1 "B" = .queued ∧
    getTaskStatus scenarioC1 "C" = .queued ∧
    scenarioC1.dispatchLog ≠ ["B", "A", "C"] := by
  refine ⟨by decide, by decide, by decide, by decide⟩

/-- The C2 scenario: two tasks submitted to a pool of size 1; the first
completes, leaving worker_1 idle and T2 at the head of the queue. -/
def scenarioC2 : OrchestratorState :=
  run cfgOne
    [ .submit (plainTask "T1" 1) 0, .submit (plainTask "T2" 1) 0,
      .workerMsg "worker_1"
        (.complete { taskId := "T1", result := none, duration := 5 }) 0 ]

/-- C2: false of the code.  After worker_1 completes T1 it is idle, yet
T2 stays queued: `processQueue` only dispatches while
`workers.size < maxWorkers`, so with a full pool the worker-became-idle
event dispatches nothing and the queued task is left undispatched even
though an idle worker exists. -/
theorem C2_idle_worker_queued_task_stuck :
    findWorker? scenarioC2.workers "worker_1" =
      some { id := "worker_1", type := .monitor, status := .idle,
             currentTask := none, tasksCompleted := 1, errors := 0,
             lastActivity := 0 } ∧
    scenarioC2.taskQueue.map (fun t => t.id) = ["T2"] ∧
    getTaskStatus scenarioC2 "T2" = .queued := by
  refine ⟨by decide, by decide, by decide⟩

/-- C3: for every event sequence the pool never exceeds `maxWorkers`,
hence the number of simultaneously running workers never exceeds
`maxWorkers` either.  Workers are created only in `getOrCreateWorker`,
guarded by `workers.size < maxWorkers`. -/
theorem C3_pool_and_running_bound (cfg : Config) (evs : List Event) :
    (run cfg evs).workers.length ≤ cfg.maxWorkers ∧
    ((run cfg evs).workers.filter
        (fun w => w.status == WorkerStatus.running)).length ≤ cfg.maxWorkers := by
  obtain ⟨hc, hl⟩ := poolPres_run cfg evs
  have hb : (run cfg evs).workers.length ≤ cfg.maxWorkers := hl (Nat.zero_le _)
  exact ⟨hb, (List.length_filter_le _ _).trans hb⟩

/-- C4: `submitTask` on a full queue fails immediately with the
queue-full error and leaves the state unchanged (no blocking, no
eviction); below capacity it succeeds and returns the task's id. -/
theorem C4_submit_queue_full (s : OrchestratorState) (task : WorkerTask)
    (now : Nat) :
    (s.taskQueue.length ≥ s.config.taskQueueSize →
      submitTask s task now =
        .error ("Task queue full (" ++ toString s.config.taskQueueSize ++ ")") ∧
      step s (.submit task now) = s) ∧
    (s.taskQueue.length < s.config.taskQueueSize →
      ∃ s', submitTask s task now = .ok (task.id, s')) := by
  constructor
  · intro h
    have he : submitTask s task now =
        .error ("Task queue full (" ++ toString s.config.taskQueueSize ++ ")") := by
      unfold submitTask
      rw [if_pos h]
    refine ⟨he, ?_⟩
    simp only [step]
    rw [he]
  · intro h
    refine ⟨processQueue { s with taskQueue := s.taskQueue ++ [task] } now, ?_⟩
    unfold submitTask
    rw [if_neg (by omega)]

/-- Witness for C4 at concrete inputs: a zero-capacity queue rejects the
first submission and the state is untouched; a non-full queue accepts. -/
theorem C4_submit_queue_full_witness :
    (submitTask (initState cfgNoQueue) (plainTask "W" 1) 0 =
        .error ("Task queue full (" ++ toString (0 : Nat) ++ ")") ∧
      step (initState cfgNoQueue) (.submit (plainTask "W" 1) 0) =
        initState cfgNoQueue) ∧
    (∃ s', submitTask (initState cfgOne) (plainTask "W" 1) 0 = .ok ("W", s')) :=
  ⟨(C4_submit_queue_full (initState cfgNoQueue) (plainTask "W" 1) 0).1 (by decide),
   (C4_submit_queue_full (initState cfgOne) (plainTask "W" 1) 0).2 (by decide)⟩

/-- The C5 scenario after the first failed attempt: R was dispatched,
errored, and was re-dispatched once. -/
def scenarioC5early : OrchestratorState :=
  run cfgTwo [ .submit retryTask 0, errEventR ]

/-- The C5 scenario after the handler has errored on every delivered
attempt (further error events are no-ops once the task is dropped). -/
def scenarioC5 : OrchestratorState :=
  run cfgTwo [ .submit retryTask 0, errEventR, errEventR, errEventR ]

/-- C5: false of the code.  With `maxRetries = 2` and an always-throwing
handler there are exactly 2 execution attempts, not 3: the retry bound
compares the worker's cumulative `errors` counter (there is no per-task
attempt counter).  Moreover a failed `WorkerResult` is recorded after the
first, non-terminal attempt, not only when retries are exhausted. -/
theorem C5_retry_attempts_and_early_result :
    scenarioC5early.dispatchLog = ["R", "R"] ∧
    getResult scenarioC5early "R" =
      some { taskId := "R", success := false, data := none,
             error := some "boom", duration := 0 } ∧
    scenarioC5.dispatchLog = ["R", "R"] ∧
    getTaskStatus scenarioC5 "R" = .error := by
  refine ⟨by decide, by decide, by decide, by decide⟩

/-- The state right after the timeout task was dispatched to worker_1. -/
def scenarioC6pre : OrchestratorState := run cfgTwo [ .submit timeoutTask 0 ]

/-- The state after T's timeout fired. -/
def scenarioC6timeout : OrchestratorState :=
  run cfgTwo [ .submit timeoutTask 0, .timerFire "T" 100 ]

/-- The state after a task U whose handler threw. -/
def scenarioC6error : OrchestratorState :=
  run cfgTwo
    [ .submit (plainTask "U" 1) 0,
      .workerMsg "worker_1" (.error { taskId := "U", message := "boom" }) 0 ]

/-- C6 counterexample: there is no distinct Terminated task status.  A
task terminated by timeout is reported with the same `'error'` status as
a task whose handler threw; `getTaskStatus` has no `'terminated'`
value. -/
theorem C6_no_distinct_terminated_status :
    getTaskStatus scenarioC6timeout "T" = .error ∧
    getTaskStatus scenarioC6error "U" = .error ∧
    getTaskStatus scenarioC6timeout "T" = getTaskStatus scenarioC6error "U" := by
  refine ⟨by decide, by decide, by decide⟩

/-- C6 (amended): when the timer of a running task fires, the task is
forcibly terminated: a failed result with message "Task terminated:
timeout" and duration 0 is recorded, the task leaves the active set, its
status is thereafter reported as `'error'` (not a distinct Terminated),
and the worker that ran it is set back to idle. -/
theorem C6_timeout_marks_error_and_frees_worker (s : OrchestratorState)
    (tid : String) (task : WorkerTask) (w : WorkerInstance)
    (hact : getActive? s.activeTasks tid = some task)
    (hw : s.workers.find? (fun x => x.currentTask == some tid) = some w)
    (hq : s.taskQueue.any (fun t => t.id == tid) = false)
    (hwid : findWorker? s.workers w.id = some w) :
    getResult (onTaskTimeout s tid) tid =
      some { taskId := tid, success := false, data := none,
             error := some "Task terminated: timeout", duration := 0 } ∧
    getTaskStatus (onTaskTimeout s tid) tid = .error ∧
    getActive? (onTaskTimeout s tid).activeTasks tid = none ∧
    findWorker? (onTaskTimeout s tid).workers w.id =
      some { w with currentTask := none, status := .idle } := by
  have hany := getActive?_some_any s.activeTasks tid task hact
  have hterm : onTaskTimeout s tid = terminateTask s tid "timeout" := by
    unfold onTaskTimeout
    simp [hany]
  rw [hterm, terminateTask_eq s tid "timeout" task w hact hw]
  refine ⟨?_, ?_, ?_, ?_⟩
  · exact getResult?_setResult_self s.results _
  · exact getTaskStatus_error_of _ tid _ hq (any_removeActive_self _ _)
      (getResult?_setResult_self s.results _) rfl
  · exact getActive?_removeActive_self _ _
  · exact findWorker?_updateWorker_of_found hwid _ rfl

/-- Worker_1 as it stands in `scenarioC6pre`: running task T. -/
def workerC6 : WorkerInstance :=
  { id := "worker_1", type := .monitor, status := .running,
    currentTask := some "T", tasksCompleted := 0, errors := 0,
    lastActivity := 0 }

/-- Witness for C6 (amended) on the concrete timeout scenario. -/
theorem C6_timeout_marks_error_and_frees_worker_witness :
    getResult (onTaskTimeout scenarioC6pre "T") "T" =
      some { taskId := "T", success := false, data := none,
             error := some "Task terminated: timeout", duration := 0 } ∧
    getTaskStatus (onTaskTimeout scenarioC6pre "T") "T" = .error ∧
    getActive? (onTaskTimeout scenarioC6pre "T").activeTasks "T" = none ∧
    findWorker? (onTaskTimeout scenarioC6pre "T").workers "worker_1" =
      some { workerC6 with currentTask := none, status := .idle } :=
  C6_timeout_marks_error_and_frees_worker scenarioC6pre "T" timeoutTask workerC6
    (by decide) (by decide) (by decide) (by decide)

/-- The C7 pre-state: T timed out on worker_1 (terminal result, no
worker holds it) and worker_1 has since been reassigned to T2. -/
def scenarioC7pre : OrchestratorState :=
  run cfgTwo
    [ .submit timeoutTask 0, .timerFire "T" 100, .submit (plainTask "T2" 1) 200 ]

/-- The C7 post-state: worker_1's late `complete` message for the
already-terminated T arrives while worker_1 is running T2. -/
def scenarioC7 : OrchestratorState :=
  run cfgTwo
    [ .submit timeoutTask 0, .timerFire "T" 100, .submit (plainTask "T2" 1) 200,
      .workerMsg "worker_1"
        (.complete { taskId := "T", result := some "stale", duration := 777 }) 300 ]

/-- C7: false of the code.  T has reached a terminal outcome and is no
worker's `currentTask`, yet the late `complete` message carrying T's id
is not a no-op: `handleComplete` ignores the message's task id and
resolves the task from the delivering worker's `currentTask`, so T2 is
recorded as successfully completed with the stale payload and duration
reported for T. -/
theorem C7_late_message_misattributed :
    getTaskStatus scenarioC7pre "T" = .error ∧
    scenarioC7pre.workers.find? (fun x => x.currentTask == some "T") = none ∧
    getTaskStatus scenarioC7pre "T2" = .running ∧
    getTaskStatus scenarioC7 "T2" = .completed ∧
    getResult scenarioC7 "T2" =
      some { taskId := "T2", success := true, data := some "stale",
             error := none, duration := 777 } := by
  refine ⟨by decide, by decide, by decide, by decide, by decide⟩

/-- The C8 scenario: worker_1 is running V when its execution context
reports an `error` event. -/
def scenarioC8 : OrchestratorState :=
  run cfgTwo [ .submit (plainTask "V" 1) 0, .workerError "worker_1" "crash" 50 ]

/-- C8 counterexample: after a worker `error` event while holding a
task, the worker is NOT removed from the pool — it remains, and
`handleTaskError` has set it back to idle. -/
theorem C8_error_event_keeps_worker_in_pool :
    getTaskStatus scenarioC8 "V" = .error ∧
    findWorker? scenarioC8.workers "worker_1" =
      some { id := "worker_1", type := .monitor, status := .idle,
             currentTask := none, tasksCompleted := 0, errors := 1,
             lastActivity := 0 } := by
  refine ⟨by decide, by decide⟩

/-- C8 (amended): when a worker's execution context *exits* unexpectedly
while holding a task, the held task is marked errored and the worker is
removed from the pool, with no eager replacement (with an empty queue and
no retry, the pool is exactly the old pool minus the crashed worker).
When the execution context reports an *error* event while holding a
task, the task is likewise marked errored, but the worker stays in the
pool and is returned to idle status. -/
theorem C8_crash_handling (s : OrchestratorState) (wid : String)
    (w : WorkerInstance) (task : WorkerTask) (code : Int) (errMsg : String)
    (now : Nat)
    (hw : findWorker? s.workers wid = some w)
    (hcur : w.currentTask = some task.id)
    (hact : getActive? s.activeTasks task.id = some task)
    (hnr : task.retryOnError = false)
    (hq : s.taskQueue = []) :
    ((handleWorkerExit s wid code now).workers = removeWorker s.workers wid ∧
      getResult (handleWorkerExit s wid code now) task.id =
        some { taskId := task.id, success := false, data := none,
               error := some ("Worker exited with code " ++ toString code),
               duration := 0 }) ∧
    (getResult (handleWorkerError s wid errMsg now) task.id =
        some { taskId := task.id, success := false, data := none,
               error := some errMsg, duration := 0 } ∧
      findWorker? (handleWorkerError s wid errMsg now).workers wid =
        some { w with status := .idle, currentTask := none, errors := w.errors + 1 }) := by
  have hwidw : w.id = wid := by
    have := List.find?_some hw
    simpa using this
  constructor
  · -- exit path
    have hexit : handleWorkerExit s wid code now =
        handleTaskError { s with workers := removeWorker s.workers wid } w
          ("Worker exited with code " ++ toString code) now := by
      unfold handleWorkerExit
      rw [show findWorker? s.workers wid = some w from hw]
      simp [hcur]
    rw [hexit,
      handleTaskError_eq_noretry { s with workers := removeWorker s.workers wid }
        w ("Worker exited with code " ++ toString code) now task hcur hact hnr,
      processQueue_of_nil _ now (by simpa using hq)]
    constructor
    · exact updateWorker_removeWorker_self s.workers _ wid hwidw
    · exact getResult?_setResult_self s.results _
  · -- error-event path
    have herr : handleWorkerError s wid errMsg now =
        handleTaskError
          { s with workers := updateWorker s.workers { w with status := .error } }
          { w with status := .error } errMsg now := by
      unfold handleWorkerError
      rw [show findWorker? s.workers wid = some w from hw]
      simp [hcur]
    rw [herr,
      handleTaskError_eq_noretry
        { s with workers := updateWorker s.workers { w with status := .error } }
        { w with status := .error } errMsg now task hcur hact hnr,
      processQueue_of_nil _ now (by simpa using hq)]
    constructor
    · exact getResult?_setResult_self s.results _
    · exact findWorker?_updateWorker_of_found
        (findWorker?_updateWorker_of_found hw { w with status := .error } rfl) _ rfl

/-- Worker_1 as it stands before the C8 crash: running V. -/
def workerC8 : WorkerInstance :=
  { id := "worker_1", type := .monitor, status := .running,
    currentTask := some "V", tasksCompleted := 0, errors := 0,
    lastActivity := 0 }

/-- The C8 pre-state: worker_1 running V, empty queue. -/
def scenarioC8pre : OrchestratorState := run cfgTwo [ .submit (plainTask "V" 1) 0 ]

/-- Witness for C8 (amended) on the concrete crash scenario. -/
theorem C8_crash_handling_witness :
    ((handleWorkerExit scenarioC8pre "worker_1" 1 50).workers =
        removeWorker scenarioC8pre.workers "worker_1" ∧
      getResult (handleWorkerExit scenarioC8pre "worker_1" 1 50) "V" =
        some { taskId := "V", success := false, data := none,
               error := some ("Worker exited with code " ++ toString (1 : Int)),
               duration := 0 }) ∧
    (getResult (handleWorkerError scenarioC8pre "worker_1" "crash" 50) "V" =
        some { taskId := "V", success := false, data := none,
               error := some "crash", duration := 0 } ∧
      findWorker? (handleWorkerError scenarioC8pre "worker_1" "crash" 50).workers
          "worker_1" =
        some { workerC8 with status := .idle, currentTask := none, errors := 1 }) :=
  C8_crash_handling scenarioC8pre "worker_1" workerC8 (plainTask "V" 1) 1 "crash" 50
    (by decide) (by decide) (by decide) (by decide) (by decide)

/-- C9: `getTaskStatus` on an id that is not queued, not active and has
no recorded result returns the distinct `'unknown'` status.  In the
embedding `getTaskStatus` is a total read-only function, so it can
neither throw nor change any state. -/
theorem C9_unknown_status (s : OrchestratorState) (tid : String)
    (hq : s.taskQueue.any (fun t => t.id == tid) = false)
    (ha : s.activeTasks.any (fun t => t.id == tid) = false)
    (hr : getResult? s.results tid = none) :
    getTaskStatus s tid = .unknown := by
  unfold getTaskStatus
  rw [hq, ha, hr]
  simp

/-- Witness for C9: a never-submitted id queries as `'unknown'`, both on
the fresh orchestrator and mid-run. -/
theorem C9_unknown_status_witness :
    getTaskStatus (initState cfgTwo) "nonexistent" = .unknown ∧
    getTaskStatus scenarioC2 "nonexistent" = .unknown :=
  ⟨C9_unknown_status (initState cfgTwo) "nonexistent"
      (by decide) (by decide) (by decide),
   C9_unknown_status scenarioC2 "nonexistent"
      (by decide) (by decide) (by decide)⟩

/-- C10: every result written by a failure path — handler error
(`handleTaskError`, which also serves worker crashes and exits) or
timeout termination (`terminateTask`) — has `success = false` and
`duration = 0` regardless of elapsed time, while a successful completion
records `success = true` with the worker-reported duration. -/
theorem C10_failure_duration_zero (s : OrchestratorState) (w : WorkerInstance)
    (task : WorkerTask) (errMsg reason tid : String) (data : CompleteData)
    (now : Nat) :
    (w.currentTask = some task.id →
      getActive? s.activeTasks task.id = some task →
      getResult (handleTaskError s w errMsg now) task.id =
        some { taskId := task.id, success := false, data := none,
               error := some errMsg, duration := 0 }) ∧
    (getActive? s.activeTasks tid = some task →
      s.workers.find? (fun x => x.currentTask == some tid) = some w →
      getResult (terminateTask s tid reason) tid =
        some { taskId := tid, success := false, data := none,
               error := some ("Task terminated: " ++ reason), duration := 0 }) ∧
    (w.currentTask = some task.id →
      getActive? s.activeTasks task.id = some task →
      getResult (handleComplete s w data now) task.id =
        some { taskId := task.id, success := true, data := data.result,
               error := none, duration := data.duration }) :=
  ⟨fun hcur hact => handleTaskError_result s w errMsg now task hcur hact,
   fun hact hw => terminateTask_result s tid reason task w hact hw,
   fun hcur hact => handleComplete_result s w data now task hcur hact⟩

/-- Witness for C10 on the concrete running-task state. -/
theorem C10_failure_duration_zero_witness :
    getResult (handleTaskError scenarioC6pre workerC6 "boom" 1) "T" =
      some { taskId := "T", success := false, data := none,
             error := some "boom", duration := 0 } ∧
    getResult (terminateTask scenarioC6pre "T" "timeout") "T" =
      some { taskId := "T", success := false, data := none,
             error := some "Task terminated: timeout", duration := 0 } ∧
    getResult (handleComplete scenarioC6pre workerC6
        { taskId := "T", result := some "ok", duration := 42 } 1) "T" =
      some { taskId := "T", success := true, data := some "ok",
             error := none, duration := 42 } :=
  ⟨(C10_failure_duration_zero scenarioC6pre workerC6 timeoutTask "boom" "timeout"
      "T" { taskId := "T", result := some "ok", duration := 42 } 1).1
      (by decide) (by decide),
   (C10_failure_duration_zero scenarioC6pre workerC6 timeoutTask "boom" "timeout"
      "T" { taskId := "T", result := some "ok", duration := 42 } 1).2.1
      (by decide) (by decide),
   (C10_failure_duration_zero scenarioC6pre workerC6 timeoutTask "boom" "timeout"
      "T" { taskId := "T", result := some "ok", duration := 42 } 1).2.2
      (by decide) (by decide)⟩

end GucciBot
